import Mathlib

/-!
Shallow embedding of the fraud-detection inference service
(`src/app/main.py`): global state, startup artifact load, health probes
and the `/predict` endpoint, together with theorems checking the
natural-language specification against this code.

Numeric values are modelled as rationals; the serialized classifier is
modelled as an abstract object carrying optional feature-name metadata
and a fallible probability function.
-/

namespace FraudService

/-- A JSON value as it can appear in a request body field. -/
inductive JsonValue where
  | num (q : ℚ)
  | boolV (b : Bool)
  | str (s : String)
  | null
  | arr (vs : List JsonValue)
  | obj (fields : List (String × JsonValue))

/-- The loaded classifier (`joblib.load("artifacts/model.pkl")`):
`feature_names_in_` metadata may be absent (attribute access then raises),
and `predict_proba` may fail with a message (numeric error, shape
mismatch), otherwise returning a matrix of class probabilities. -/
structure Classifier where
  feature_names_in : Option (List String)
  predict_proba : List ℚ → Except String (List (List ℚ))

/-- The record `app_state` with is_ready false and is_alive true, from main.py line 43. -/
structure AppState where
  is_ready : Bool
  is_alive : Bool
deriving Repr, DecidableEq

/-- The module-level globals of main.py: `model`, `feature_names`,
`app_state`. -/
structure ServerState where
  model : Option Classifier
  feature_names : Option (List String)
  app_state : AppState

/-- State at process start (main.py lines 41-43). -/
def initState : ServerState :=
  { model := none
    feature_names := none
    app_state := { is_ready := false, is_alive := true } }

/-- Startup: `startup_event` (main.py lines 107-128): the whole load runs inside
one `try`.  `joblib.load` either fails (missing file or deserialization
error, modelled as the `Except.error` case of `load`) or yields a
classifier; the classifier is assigned to the global `model` *before*
`feature_names_in_` is read, so a classifier without that metadata
leaves `model` assigned but `is_ready` false.  Only after both global
assignments succeed is `is_ready` set to true.  Every exception is
caught: the handler only sets `is_ready := False` and logs. -/
def startup_event (load : Except String Classifier) (s : ServerState) :
    ServerState :=
  match load with
  | .error _ =>
      { s with app_state := { s.app_state with is_ready := false } }
  | .ok m =>
      match m.feature_names_in with
      | none =>
          -- `model = joblib.load(...)` succeeded, then
          -- `model.feature_names_in_` raised; caught by the except block.
          { s with
              model := some m
              app_state := { s.app_state with is_ready := false } }
      | some ns =>
          { s with
              model := some m
              feature_names := some ns
              app_state := { s.app_state with is_ready := true } }

/-- An HTTP response: a status code plus an abstract body tag. -/
structure HttpReply where
  status : Nat
  body : Option String
deriving Repr, DecidableEq

/-- Route `health_check` (main.py lines 131-134): always 200 healthy. -/
def health_check (_s : ServerState) : HttpReply :=
  { status := 200, body := some "healthy" }

/-- Route `liveness_probe` (main.py lines 136-141): 200 alive when
`app_state["is_alive"]`, else 503. -/
def liveness_probe (s : ServerState) : HttpReply :=
  if s.app_state.is_alive then { status := 200, body := some "alive" }
  else { status := 503, body := none }

/-- Body of a 200 `/ready` response (main.py line 147). -/
structure ReadyBody where
  statusField : String
  model_loaded : Bool
deriving Repr, DecidableEq

/-- Route `readiness_probe` (main.py lines 143-148): 200 with
`{"status": "ready", "model_loaded": model is not None}` when
`app_state["is_ready"]`, else 503 with empty body. -/
def readiness_probe (s : ServerState) : Except Nat ReadyBody :=
  if s.app_state.is_ready then
    .ok { statusField := "ready", model_loaded := s.model.isSome }
  else
    .error 503

/-- Route `root` (main.py lines 193-206): static service info, always 200. -/
def root (_s : ServerState) : HttpReply :=
  { status := 200, body := some "Fraud Detection API" }

/-- The field names of the `TransactionFeatures` pydantic model
(main.py lines 46-77), in declaration order: `Time`, `V1`..`V28`,
`Amount` — 30 mandatory `float` fields with no defaults. -/
def requiredFields : List String :=
  ["Time", "V1", "V2", "V3", "V4", "V5", "V6", "V7", "V8", "V9", "V10",
   "V11", "V12", "V13", "V14", "V15", "V16", "V17", "V18", "V19", "V20",
   "V21", "V22", "V23", "V24", "V25", "V26", "V27", "V28", "Amount"]

/-- Pydantic v1 coercion of a JSON value into a `float` field: numbers
pass through, booleans coerce (`True -> 1.0`), a string coerces exactly
when Python `float(s)` parses it (the parse is abstracted as `pf`), and
`null`, arrays and objects are rejected. -/
def coerceFloat (pf : String → Option ℚ) : JsonValue → Option ℚ
  | .num q => some q
  | .boolV b => some (if b then 1 else 0)
  | .str s => pf s
  | .null => none
  | .arr _ => none
  | .obj _ => none

/-- FastAPI body validation against `TransactionFeatures`: every one of
the 30 declared fields must be present in the JSON object and coercible
to `float`; unknown extra fields are ignored (pydantic v1 default).  On
success the result is `features.dict()` — the field-name/value mapping
in declaration order.  On failure FastAPI never calls the handler and
answers with status 422 (`RequestValidationError` default handler). -/
def validateTransaction (pf : String → Option ℚ)
    (raw : List (String × JsonValue)) : Except Unit (List (String × ℚ)) :=
  requiredFields.mapM fun n =>
    match raw.lookup n with
    | none => .error ()
    | some v =>
        match coerceFloat pf v with
        | none => .error ()
        | some q => .ok (n, q)

/-- Column selection `features_df[feature_names]` on the one-row DataFrame built from
`features.dict()` (main.py lines 166-170): selects the columns named in
`names`, in that order; a name absent from the record raises a pandas
`KeyError` (caught by the handler's `except`). -/
def reorderFeatures (record : List (String × ℚ)) (names : List String) :
    Except String (List ℚ) :=
  names.mapM fun n =>
    match record.lookup n with
    | some q => .ok q
    | none => .error ("KeyError: " ++ n)

/-- Outcome of one `/predict` call, instrumented: `status`/`is_fraud`/
`fraud_probability`/`detail` mirror the HTTP response, `invocations`
counts calls to `model.predict_proba` (the single call site at line
173), and `passedVector` records the feature row handed to it. -/
structure PredictOutcome where
  status : Nat
  is_fraud : Option Nat
  fraud_probability : Option ℚ
  detail : Option String
  invocations : Nat
  passedVector : Option (List ℚ)
deriving Repr, DecidableEq

/-- The `predict` handler body (main.py lines 152-190), reached only after
body validation succeeded.  Line order is preserved: the not-ready check
(158) fires before anything touches `feature_names` or `model`; inside
the `try`, the record is re-projected through the global `feature_names`
(170), then `model.predict_proba` runs (173), `prediction_proba[0][1]`
is read (174) and the threshold applied (175).  Any exception in the
`try` — a pandas KeyError, `feature_names`/`model` still `None`, a
classifier failure, or an out-of-range index — is caught and mapped to
a 500 response whose detail quotes the exception message. -/
def predictHandler (s : ServerState) (record : List (String × ℚ)) :
    PredictOutcome :=
  if ¬ s.app_state.is_ready then
    { status := 503, is_fraud := none, fraud_probability := none
      detail := some "Service not ready. Model not loaded."
      invocations := 0, passedVector := none }
  else
    match s.feature_names with
    | none =>
        -- `features_df[None]` raises; caught at line 188.
        { status := 500, is_fraud := none, fraud_probability := none
          detail := some "Prediction failed: feature_names is None"
          invocations := 0, passedVector := none }
    | some names =>
        match reorderFeatures record names with
        | .error msg =>
            { status := 500, is_fraud := none, fraud_probability := none
              detail := some ("Prediction failed: " ++ msg)
              invocations := 0, passedVector := none }
        | .ok vec =>
            match s.model with
            | none =>
                -- `model.predict_proba` on `None` raises; caught at 188.
                { status := 500, is_fraud := none
                  fraud_probability := none
                  detail := some "Prediction failed: model is None"
                  invocations := 0, passedVector := none }
            | some m =>
                match m.predict_proba vec with
                | .error msg =>
                    { status := 500, is_fraud := none
                      fraud_probability := none
                      detail := some ("Prediction failed: " ++ msg)
                      invocations := 1, passedVector := some vec }
                | .ok proba =>
                    match proba.head? >>= fun row => row.get? 1 with
                    | none =>
                        -- `prediction_proba[0][1]` raised IndexError.
                        { status := 500, is_fraud := none
                          fraud_probability := none
                          detail := some "Prediction failed: index error"
                          invocations := 1, passedVector := some vec }
                    | some p =>
                        { status := 200
                          is_fraud := some (if p > 1/2 then 1 else 0)
                          fraud_probability := some p
                          detail := none
                          invocations := 1, passedVector := some vec }

/-- The full `/predict` route: FastAPI parses and validates the body
against `TransactionFeatures` first; a validation failure answers 422
without ever entering the handler; otherwise the handler runs on the
validated record. -/
def predictEndpoint (pf : String → Option ℚ) (s : ServerState)
    (raw : List (String × JsonValue)) : PredictOutcome :=
  match validateTransaction pf raw with
  | .error _ =>
      { status := 422, is_fraud := none, fraud_probability := none
        detail := some "validation error", invocations := 0
        passedVector := none }
  | .ok record => predictHandler s record

/-- The ways the startup load can fail: `joblib.load` raising (missing
file or deserialization failure), or the loaded object lacking the
`feature_names_in_` metadata. -/
def loadFailed (load : Except String Classifier) : Prop :=
  (∃ e, load = .error e) ∨ (∃ m, load = .ok m ∧ m.feature_names_in = none)

/-- The `try` block of `predict` specialized to a present model handle
and feature-name list — used to state that a ready server never takes
the absent-handle failure paths of `predictHandler`. -/
def predictAssuming (m : Classifier) (names : List String)
    (record : List (String × ℚ)) : PredictOutcome :=
  match reorderFeatures record names with
  | .error msg =>
      { status := 500, is_fraud := none, fraud_probability := none
        detail := some ("Prediction failed: " ++ msg)
        invocations := 0, passedVector := none }
  | .ok vec =>
      match m.predict_proba vec with
      | .error msg =>
          { status := 500, is_fraud := none, fraud_probability := none
            detail := some ("Prediction failed: " ++ msg)
            invocations := 1, passedVector := some vec }
      | .ok proba =>
          match proba.head? >>= fun row => row.get? 1 with
          | none =>
              { status := 500, is_fraud := none
                fraud_probability := none
                detail := some "Prediction failed: index error"
                invocations := 1, passedVector := some vec }
          | some p =>
              { status := 200
                is_fraud := some (if p > 1/2 then 1 else 0)
                fraud_probability := some p
                detail := none
                invocations := 1, passedVector := some vec }

/-- One inbound request; the body of a `/predict` request is an
arbitrary JSON object. -/
inductive Request where
  | health
  | live
  | ready
  | rootInfo
  | predictReq (raw : List (String × JsonValue))

/-- The server state after a request is handled.  None of the five
handlers in main.py assigns any module-level global (`global` appears
only in `startup_event`), so every handler leaves the state as it found
it. -/
def stepState (s : ServerState) (_r : Request) : ServerState := s

/-- States the process can be in: the initial module state; the state
right after the one-shot startup event (which FastAPI runs once, before
request traffic); and anything a sequence of handled requests leads to. -/
inductive Reachable : ServerState → Prop where
  | pre : Reachable initState
  | boot (load : Except String Classifier) :
      Reachable (startup_event load initState)
  | step {s : ServerState} (r : Request) (h : Reachable s) :
      Reachable (stepState s r)

/-! ### Concrete fixtures used by witnesses -/

/-- A string-to-float parse for witnesses: no string parses. -/
def pfNone : String → Option ℚ := fun _ => none

/-- A classifier trained on `[V2, V1, Amount]` (the spec's reordering
example), answering a fixed probability row. -/
def exClassifier : Classifier :=
  { feature_names_in := some ["V2", "V1", "Amount"]
    predict_proba := fun _v => .ok [[1, 0]] }

/-- Server state after a successful startup load of `exClassifier`. -/
def exState : ServerState := startup_event (.ok exClassifier) initState

/-- The spec's example request body, keys in request order
(`V1`, `V2`, `Amount`, `Time` first), padded with the remaining
mandatory fields. -/
def exRaw : List (String × JsonValue) :=
  [("V1", .num 1), ("V2", .num 2), ("Amount", .num 3), ("Time", .num 0),
   ("V3", .num 0), ("V4", .num 0), ("V5", .num 0), ("V6", .num 0),
   ("V7", .num 0), ("V8", .num 0), ("V9", .num 0), ("V10", .num 0),
   ("V11", .num 0), ("V12", .num 0), ("V13", .num 0), ("V14", .num 0),
   ("V15", .num 0), ("V16", .num 0), ("V17", .num 0), ("V18", .num 0),
   ("V19", .num 0), ("V20", .num 0), ("V21", .num 0), ("V22", .num 0),
   ("V23", .num 0), ("V24", .num 0), ("V25", .num 0), ("V26", .num 0),
   ("V27", .num 0), ("V28", .num 0)]

/-- The value of `features.dict()` for `exRaw`: field order is the pydantic
declaration order, not the request order. -/
def exRecord : List (String × ℚ) :=
  [("Time", 0), ("V1", 1), ("V2", 2), ("V3", 0), ("V4", 0), ("V5", 0),
   ("V6", 0), ("V7", 0), ("V8", 0), ("V9", 0), ("V10", 0), ("V11", 0),
   ("V12", 0), ("V13", 0), ("V14", 0), ("V15", 0), ("V16", 0),
   ("V17", 0), ("V18", 0), ("V19", 0), ("V20", 0), ("V21", 0),
   ("V22", 0), ("V23", 0), ("V24", 0), ("V25", 0), ("V26", 0),
   ("V27", 0), ("V28", 0), ("Amount", 3)]

/-- A classifier answering probability `[1/2, 1/2]`, for the threshold
boundary. -/
def exClassifierHalf : Classifier :=
  { feature_names_in := some ["Amount"]
    predict_proba := fun _v => .ok [[1/2, 1/2]] }

/-- Server state after a successful startup load of `exClassifierHalf`. -/
def exStateHalf : ServerState := startup_event (.ok exClassifierHalf) initState

/-- A request body with a `null` where a float is required (and all
other mandatory fields missing). -/
def badRaw : List (String × JsonValue) := [("Time", .null)]

/-- A string-to-float parse recognizing the decimal string "1.5", as
Python float parsing does. -/
def pfDecimal : String → Option ℚ :=
  fun s => if s = "1.5" then some (3/2) else none

/-- The example body with the JSON string "1.5" — a non-numeric JSON
value — supplied for `V1`; pydantic coerces it, so validation passes. -/
def strRaw : List (String × JsonValue) :=
  [("V1", .str "1.5"), ("V2", .num 2), ("Amount", .num 3),
   ("Time", .num 0),
   ("V3", .num 0), ("V4", .num 0), ("V5", .num 0), ("V6", .num 0),
   ("V7", .num 0), ("V8", .num 0), ("V9", .num 0), ("V10", .num 0),
   ("V11", .num 0), ("V12", .num 0), ("V13", .num 0), ("V14", .num 0),
   ("V15", .num 0), ("V16", .num 0), ("V17", .num 0), ("V18", .num 0),
   ("V19", .num 0), ("V20", .num 0), ("V21", .num 0), ("V22", .num 0),
   ("V23", .num 0), ("V24", .num 0), ("V25", .num 0), ("V26", .num 0),
   ("V27", .num 0), ("V28", .num 0)]

/-- A classifier whose schema requires a feature (`V99`) the request
schema never supplies: artifact/serving skew. -/
def skewClassifier : Classifier :=
  { feature_names_in := some ["V99"]
    predict_proba := fun _v => .ok [[1, 0]] }

/-- Server state after a successful startup load of `skewClassifier`. -/
def skewState : ServerState := startup_event (.ok skewClassifier) initState

/-! ### Helper lemmas -/

theorem lookup_isSome_eq {record : List (String × ℚ)} {n : String}
    (h : (record.lookup n).isSome) :
    record.lookup n = some ((record.lookup n).getD 0) := by
  cases hl : record.lookup n with
  | none => rw [hl] at h; cases h
  | some q => rfl

theorem reorderFeatures_ok (record : List (String × ℚ))
    (names : List String)
    (hcov : ∀ n ∈ names, (record.lookup n).isSome) :
    reorderFeatures record names
      = .ok (names.map fun n => (record.lookup n).getD 0) := by
  induction names with
  | nil => rfl
  | cons a l ih =>
    have ha := lookup_isSome_eq (hcov a (List.mem_cons_self a l))
    have hl := ih fun n hn => hcov n (List.mem_cons_of_mem a hn)
    simp only [reorderFeatures, List.mapM_cons] at hl ⊢
    rw [ha, hl]
    rfl

theorem mapM_error_of_bad {β : Type} (f : String → Except Unit β)
    (names : List String) (h : ∃ n ∈ names, f n = .error ()) :
    names.mapM f = .error () := by
  induction names with
  | nil =>
    obtain ⟨n, hn, _⟩ := h
    cases hn
  | cons a l ih =>
    obtain ⟨n, hn, hf⟩ := h
    rw [List.mapM_cons]
    rcases List.mem_cons.mp hn with rfl | hmem
    · rw [hf]; rfl
    · cases hfa : f a with
      | error e => cases e; rfl
      | ok b =>
        have hrest := ih ⟨n, hmem, hf⟩
        simp only [hrest]
        rfl

theorem startup_alive (load : Except String Classifier) (s : ServerState) :
    (startup_event load s).app_state.is_alive = s.app_state.is_alive := by
  cases load with
  | error e => rfl
  | ok m =>
    cases hns : m.feature_names_in with
    | none => simp [startup_event, hns]
    | some ns => simp [startup_event, hns]

theorem reachable_cases {s : ServerState} (h : Reachable s) :
    s = initState ∨ ∃ load, s = startup_event load initState := by
  induction h with
  | pre => exact Or.inl rfl
  | boot load => exact Or.inr ⟨load, rfl⟩
  | step r _ ih => exact ih

theorem reachable_alive {s : ServerState} (h : Reachable s) :
    s.app_state.is_alive = true := by
  rcases reachable_cases h with rfl | ⟨load, rfl⟩
  · rfl
  · rw [startup_alive]; rfl

theorem startup_ready_ok {load : Except String Classifier}
    (h : (startup_event load initState).app_state.is_ready = true) :
    ∃ m ns, load = .ok m ∧ m.feature_names_in = some ns := by
  cases load with
  | error e => cases h
  | ok m =>
    cases hns : m.feature_names_in with
    | none => simp [startup_event, hns, initState] at h
    | some ns => exact ⟨m, ns, rfl, hns⟩

theorem startup_ready_state {m : Classifier} {ns : List String}
    (hns : m.feature_names_in = some ns) :
    startup_event (.ok m) initState
      = { model := some m, feature_names := some ns
          app_state := { is_ready := true, is_alive := true } } := by
  simp [startup_event, hns, initState]

theorem reachable_ready_some {s : ServerState} (h : Reachable s)
    (hr : s.app_state.is_ready = true) :
    ∃ m ns, s.model = some m ∧ s.feature_names = some ns := by
  rcases reachable_cases h with rfl | ⟨load, rfl⟩
  · cases hr
  · obtain ⟨m, ns, hl, hns⟩ := startup_ready_ok hr
    subst hl
    rw [startup_ready_state hns]
    exact ⟨m, ns, rfl, rfl⟩

theorem foldl_stepState (s : ServerState) (rs : List Request) :
    rs.foldl stepState s = s := by
  induction rs with
  | nil => rfl
  | cons a l ih => exact ih

theorem predictEndpoint_notready
    (pf : String → Option ℚ) (s : ServerState)
    (raw : List (String × JsonValue))
    (hready : s.app_state.is_ready = false) :
    ((predictEndpoint pf s raw).status = 503
      ∨ (predictEndpoint pf s raw).status = 422)
    ∧ (predictEndpoint pf s raw).invocations = 0 := by
  cases hv : validateTransaction pf raw with
  | error e =>
    refine ⟨Or.inr ?_, ?_⟩ <;> simp [predictEndpoint, hv]
  | ok record =>
    refine ⟨Or.inl ?_, ?_⟩ <;>
      simp [predictEndpoint, hv, predictHandler, hready]

theorem predictHandler_eq_assuming
    (s : ServerState) (m : Classifier) (ns : List String)
    (record : List (String × ℚ))
    (hr : s.app_state.is_ready = true)
    (hm : s.model = some m) (hn : s.feature_names = some ns) :
    predictHandler s record = predictAssuming m ns record := by
  simp only [predictHandler, predictAssuming, hr, hm, hn,
    not_true_eq_false, if_false]

/-! ### Claim theorems -/

/-- Claim C1: for every transaction record accepted by `/predict` body
validation while the service is ready, the vector passed to the
classifier is ordered exactly by the model artifact's feature-name
sequence — entry i is the record's value for name i — so the request
body's key order is irrelevant and any record field absent from that
sequence (e.g. `Time`) contributes nothing to the vector. -/
theorem claim_C1_feature_projection
    (pf : String → Option ℚ) (s : ServerState) (m : Classifier)
    (names : List String) (raw : List (String × JsonValue))
    (record : List (String × ℚ))
    (hval : validateTransaction pf raw = .ok record)
    (hready : s.app_state.is_ready = true)
    (hnames : s.feature_names = some names)
    (hmodel : s.model = some m)
    (hcov : ∀ n ∈ names, (record.lookup n).isSome) :
    (predictEndpoint pf s raw).passedVector
      = some (names.map fun n => (record.lookup n).getD 0) := by
  simp only [predictEndpoint, hval]
  simp only [predictHandler, hready, hnames, hmodel,
    reorderFeatures_ok record names hcov, not_true_eq_false,
    if_false]
  split
  · rfl
  · split <;> rfl

/-- Witness for C1: the spec's example — artifact order
`[V2, V1, Amount]`, request supplying `V1:1, V2:2, Amount:3, Time:0` —
yields the classifier input `[2, 1, 3]` with `Time` dropped. -/
theorem claim_C1_feature_projection_witness :
    (predictEndpoint pfNone exState exRaw).passedVector
      = some [2, 1, 3] := by
  have h := claim_C1_feature_projection pfNone exState exClassifier
    ["V2", "V1", "Amount"] exRaw exRecord (by rfl) (by rfl) (by rfl)
    (by rfl) (by decide)
  rw [h]
  rfl

/-- Claim C2: on every successful `/predict` call the reported
`fraud_probability` is exactly the classifier's probability at row 0,
index 1 (the positive class), unrounded, and `is_fraud` is `1` iff that
probability is strictly greater than `1/2`; at exactly `1/2` the answer
is `0`, at `0.50001` it is `1`. -/
theorem claim_C2_threshold
    (s : ServerState) (m : Classifier) (names : List String)
    (record : List (String × ℚ)) (vec : List ℚ)
    (proba : List (List ℚ)) (p : ℚ)
    (hready : s.app_state.is_ready = true)
    (hnames : s.feature_names = some names)
    (hmodel : s.model = some m)
    (hvec : reorderFeatures record names = .ok vec)
    (hproba : m.predict_proba vec = .ok proba)
    (hp : (proba.head? >>= fun row => row.get? 1) = some p) :
    (predictHandler s record).status = 200
    ∧ (predictHandler s record).fraud_probability = some p
    ∧ (predictHandler s record).is_fraud
        = some (if p > 1/2 then 1 else 0)
    ∧ (p = 1/2 → (predictHandler s record).is_fraud = some 0)
    ∧ (p = 50001/100000 → (predictHandler s record).is_fraud = some 1) := by
  have hout : predictHandler s record
      = { status := 200, is_fraud := some (if p > 1/2 then 1 else 0)
          fraud_probability := some p, detail := none
          invocations := 1, passedVector := some vec } := by
    simp only [predictHandler, hready, hnames, hmodel, hvec, hproba, hp,
      not_true_eq_false, if_false]
  rw [hout]
  refine ⟨rfl, rfl, rfl, ?_, ?_⟩
  · rintro rfl
    norm_num
  · rintro rfl
    norm_num

/-- Witness for C2: a classifier answering `[P(normal), P(fraud)] =
[1/2, 1/2]` produces a 200 response with `is_fraud = 0`. -/
theorem claim_C2_threshold_witness :
    (predictHandler exStateHalf exRecord).status = 200
    ∧ (predictHandler exStateHalf exRecord).is_fraud = some 0 := by
  have h := claim_C2_threshold exStateHalf exClassifierHalf ["Amount"]
    exRecord [3] [[1/2, 1/2]] (1/2) (by rfl) (by rfl) (by rfl) (by rfl)
    (by rfl) (by rfl)
  exact ⟨h.1, h.2.2.2.1 rfl⟩

/-- Counterexample to C3 as stated: while the service is not ready, a
`/predict` call whose body fails validation (here an empty JSON object)
is answered 422, not 503 — FastAPI validates the body before the
handler's not-ready check can run, so not every `/predict` call in the
not-ready state yields a 503. -/
theorem claim_C3_counterexample :
    initState.app_state.is_ready = false
    ∧ (predictEndpoint pfNone initState []).status = 422
    ∧ ¬ (predictEndpoint pfNone initState []).status = 503 := by
  refine ⟨rfl, rfl, ?_⟩
  decide

/-- Claim C3 (amended): while the readiness state reports not-ready,
every `/predict` call whose body passes validation is answered 503 with
the not-ready message, and no `/predict` call — valid or not — ever
invokes the classifier (the not-ready check precedes any touch of the
model handle; validation failures never reach the handler at all). -/
theorem claim_C3_notready
    (pf : String → Option ℚ) (s : ServerState)
    (raw : List (String × JsonValue))
    (hready : s.app_state.is_ready = false) :
    (∀ record, validateTransaction pf raw = .ok record →
       (predictEndpoint pf s raw).status = 503
       ∧ (predictEndpoint pf s raw).detail
           = some "Service not ready. Model not loaded.")
    ∧ (predictEndpoint pf s raw).invocations = 0
    ∧ (predictEndpoint pf s raw).passedVector = none := by
  refine ⟨?_, ?_⟩
  · intro record hv
    simp [predictEndpoint, hv, predictHandler, hready]
  · cases hv : validateTransaction pf raw with
    | error e => simp [predictEndpoint, hv]
    | ok record => simp [predictEndpoint, hv, predictHandler, hready]

/-- Witness for C3 (amended): a well-formed body posted to the initial
(not yet loaded) state draws a 503 and zero classifier invocations. -/
theorem claim_C3_notready_witness :
    (predictEndpoint pfNone initState exRaw).status = 503
    ∧ (predictEndpoint pfNone initState exRaw).invocations = 0 := by
  have h := claim_C3_notready pfNone initState exRaw (by rfl)
  exact ⟨(h.1 exRecord (by rfl)).1, h.2.1⟩

/-- Counterexample to C4 as stated, at two concrete inputs.  First, a
schema violation (a `null` in the `Time` field, all other mandatory
fields missing) posted to a ready server is answered with status 422,
so the literal status code 400 is not the one used for schema/type
violations.  Second, a record supplying the non-numeric JSON string
"1.5" for `V1` is not rejected at all: pydantic coerces strings that
parse as floats, so validation passes and `/predict` answers 200 with
the classifier invoked — a non-numeric value does not guarantee a
400-class error. -/
theorem claim_C4_counterexample :
    ((predictEndpoint pfNone exState badRaw).status = 422
      ∧ ¬ (predictEndpoint pfNone exState badRaw).status = 400)
    ∧ ((predictEndpoint pfDecimal exState strRaw).status = 200
      ∧ (predictEndpoint pfDecimal exState strRaw).invocations = 1) := by
  refine ⟨⟨rfl, ?_⟩, rfl, rfl⟩
  decide

/-- Claim C4 (amended): a transaction record missing any of the 30
required numeric fields, or carrying a value pydantic cannot coerce to
a float (it coerces JSON numbers, booleans and strings that parse as
floats, so a non-numeric value is rejected exactly when it fails that
coercion), draws a 422 response — a 400-class client error, never a 500
and never a silent default (no prediction fields are produced and the
classifier is not invoked); 422, not the literal 400, is the status
code used for schema/type violations. -/
theorem claim_C4_validation
    (pf : String → Option ℚ) (s : ServerState)
    (raw : List (String × JsonValue))
    (hbad : ∃ n ∈ requiredFields,
        (raw.lookup n).bind (coerceFloat pf) = none) :
    (predictEndpoint pf s raw).status = 422
    ∧ 400 ≤ (predictEndpoint pf s raw).status
    ∧ (predictEndpoint pf s raw).status < 500
    ∧ (predictEndpoint pf s raw).is_fraud = none
    ∧ (predictEndpoint pf s raw).fraud_probability = none
    ∧ (predictEndpoint pf s raw).invocations = 0 := by
  obtain ⟨n, hn, hb⟩ := hbad
  have hv : validateTransaction pf raw = .error () := by
    apply mapM_error_of_bad
    refine ⟨n, hn, ?_⟩
    cases hl : raw.lookup n with
    | none => simp [hl]
    | some v =>
      rw [hl] at hb
      simp only [Option.some_bind] at hb
      simp [hl, hb]
  simp [predictEndpoint, hv]

/-- Witness for C4 (amended): the `null`-typed `Time` body draws a 422
with no prediction fields. -/
theorem claim_C4_validation_witness :
    (predictEndpoint pfNone exState badRaw).status = 422
    ∧ (predictEndpoint pfNone exState badRaw).is_fraud = none := by
  have h := claim_C4_validation pfNone exState badRaw
    ⟨"Time", by decide, by rfl⟩
  exact ⟨h.1, h.2.2.2.1⟩

/-- Claim C5: after a successful startup load of a valid artifact (the
classifier deserializes and carries feature-name metadata) `/ready`
answers 200 with status "ready" and `model_loaded = true`; on the
initial state (load not yet complete) and after a failed load, `/ready`
answers 503. -/
theorem claim_C5_readiness
    (m : Classifier) (ns : List String) (e : String)
    (hns : m.feature_names_in = some ns) :
    readiness_probe (startup_event (.ok m) initState)
      = .ok { statusField := "ready", model_loaded := true }
    ∧ readiness_probe initState = .error 503
    ∧ readiness_probe (startup_event (.error e) initState)
        = .error 503 := by
  refine ⟨?_, rfl, rfl⟩
  rw [startup_ready_state hns]
  rfl

/-- Witness for C5: the example classifier's successful load flips
`/ready` to 200 with `model_loaded = true`. -/
theorem claim_C5_readiness_witness :
    readiness_probe exState
      = .ok { statusField := "ready", model_loaded := true }
    ∧ readiness_probe initState = .error 503 := by
  have h := claim_C5_readiness exClassifier ["V2", "V1", "Amount"]
    "missing" (by rfl)
  exact ⟨h.1, h.2.1⟩

/-- Claim C6: in every reachable state `/live` answers 200 "alive" — a
failed or pending model load never flips liveness — and the liveness
answer reads only `is_alive`: any state agreeing on `is_alive` with a
reachable one gets the same answer. -/
theorem claim_C6_liveness
    (s t : ServerState) (h : Reachable s)
    (hagree : t.app_state.is_alive = s.app_state.is_alive) :
    liveness_probe s = { status := 200, body := some "alive" }
    ∧ liveness_probe t = liveness_probe s := by
  have ha := reachable_alive h
  constructor
  · simp [liveness_probe, ha]
  · simp [liveness_probe, hagree]

/-- Witness for C6: the state left by a failed startup load still
answers 200 "alive" on `/live`. -/
theorem claim_C6_liveness_witness :
    liveness_probe (startup_event (.error "missing") initState)
      = { status := 200, body := some "alive" } := by
  have h := claim_C6_liveness
    (startup_event (.error "missing") initState) initState
    (Reachable.boot (.error "missing")) (by rfl)
  exact h.1

/-- Claim C7: when the startup load fails in any way — `joblib.load`
raising (missing file, deserialization failure) or the artifact lacking
feature-name metadata — the exception is caught: in the resulting state,
and after any further sequence of handled requests, the process is
alive and not-ready; `/health` and `/live` still answer 200, `/ready`
answers 503, and every `/predict` call is rejected (503 for valid
bodies, 422 otherwise) with the classifier never invoked. -/
theorem claim_C7_load_failure
    (load : Except String Classifier) (rs : List Request)
    (hfail : loadFailed load) :
    ((rs.foldl stepState (startup_event load initState)).app_state.is_ready
        = false)
    ∧ ((rs.foldl stepState (startup_event load initState)).app_state.is_alive
        = true)
    ∧ health_check (rs.foldl stepState (startup_event load initState))
        = { status := 200, body := some "healthy" }
    ∧ liveness_probe (rs.foldl stepState (startup_event load initState))
        = { status := 200, body := some "alive" }
    ∧ readiness_probe (rs.foldl stepState (startup_event load initState))
        = .error 503
    ∧ ∀ pf raw,
        ((predictEndpoint pf (rs.foldl stepState (startup_event load initState)) raw).status = 503
          ∨ (predictEndpoint pf (rs.foldl stepState (startup_event load initState)) raw).status = 422)
        ∧ (predictEndpoint pf (rs.foldl stepState (startup_event load initState)) raw).invocations = 0 := by
  rw [foldl_stepState]
  have hready : (startup_event load initState).app_state.is_ready = false := by
    rcases hfail with ⟨e, rfl⟩ | ⟨m, rfl, hns⟩
    · rfl
    · simp [startup_event, hns, initState]
  have halive : (startup_event load initState).app_state.is_alive = true := by
    rw [startup_alive]
    rfl
  refine ⟨hready, halive, rfl, ?_, ?_, ?_⟩
  · simp [liveness_probe, halive]
  · simp [readiness_probe, hready]
  · intro pf raw
    exact predictEndpoint_notready pf _ raw hready

/-- Witness for C7: a missing artifact file leaves the service
not-ready but alive after a further `/health` request. -/
theorem claim_C7_load_failure_witness :
    (([Request.health].foldl stepState
        (startup_event (.error "Model not found at artifacts/model.pkl")
          initState)).app_state.is_ready = false)
    ∧ liveness_probe
        ([Request.health].foldl stepState
          (startup_event (.error "Model not found at artifacts/model.pkl")
            initState))
        = { status := 200, body := some "alive" } := by
  have h := claim_C7_load_failure
    (.error "Model not found at artifacts/model.pkl") [Request.health]
    (Or.inl ⟨"Model not found at artifacts/model.pkl", rfl⟩)
  exact ⟨h.1, h.2.2.2.1⟩

/-- Claim C8: in a ready state, when the feature re-projection fails (a
feature the model requires is absent from the record) or the classifier
invocation itself fails, the handler answers 500 with a detail quoting
the failure message, invokes the classifier at most once (no retry),
produces no prediction fields, and the request leaves the server state
untouched (no readiness change, no crash — a response is returned). -/
theorem claim_C8_prediction_error
    (s : ServerState) (m : Classifier) (names : List String)
    (record : List (String × ℚ)) (vec : List ℚ) (msg : String)
    (hready : s.app_state.is_ready = true)
    (hnames : s.feature_names = some names)
    (hmodel : s.model = some m)
    (hfail : reorderFeatures record names = .error msg
       ∨ (reorderFeatures record names = .ok vec
           ∧ m.predict_proba vec = .error msg)) :
    (predictHandler s record).status = 500
    ∧ (predictHandler s record).detail
        = some ("Prediction failed: " ++ msg)
    ∧ (predictHandler s record).invocations ≤ 1
    ∧ (predictHandler s record).is_fraud = none
    ∧ (predictHandler s record).fraud_probability = none
    ∧ ∀ r : Request, stepState s r = s := by
  rcases hfail with hre | ⟨hre, hpp⟩
  · have hout : predictHandler s record
        = { status := 500, is_fraud := none, fraud_probability := none
            detail := some ("Prediction failed: " ++ msg)
            invocations := 0, passedVector := none } := by
      simp [predictHandler, hready, hnames, hre]
    rw [hout]
    exact ⟨rfl, rfl, by norm_num, rfl, rfl, fun r => rfl⟩
  · have hout : predictHandler s record
        = { status := 500, is_fraud := none, fraud_probability := none
            detail := some ("Prediction failed: " ++ msg)
            invocations := 1, passedVector := some vec } := by
      simp [predictHandler, hready, hnames, hmodel, hre, hpp]
    rw [hout]
    exact ⟨rfl, rfl, le_refl 1, rfl, rfl, fun r => rfl⟩

/-- Witness for C8: a classifier trained on a feature (`V99`) the
request schema never supplies makes the handler answer 500 quoting the
KeyError. -/
theorem claim_C8_prediction_error_witness :
    (predictHandler skewState exRecord).status = 500
    ∧ (predictHandler skewState exRecord).detail
        = some "Prediction failed: KeyError: V99" := by
  have h := claim_C8_prediction_error skewState skewClassifier ["V99"]
    exRecord [] "KeyError: V99" (by rfl) (by rfl) (by rfl)
    (Or.inl (by rfl))
  exact ⟨h.1, h.2.1⟩

/-- Claim C9: across startup and all request handling, `is_alive` keeps
its initialization value `true`; `is_ready` is set to `true` only by a
successful startup load (and is otherwise left `false`); and no request
handler mutates the state — readiness flags, model handle and
feature-name list included, both for a single request and for any
sequence of requests. -/
theorem claim_C9_frame
    (s : ServerState) (r : Request) (rs : List Request)
    (load : Except String Classifier)
    (h : Reachable s) :
    s.app_state.is_alive = true
    ∧ stepState s r = s
    ∧ rs.foldl stepState s = s
    ∧ ((startup_event load initState).app_state.is_ready = true →
        ∃ m ns, load = .ok m ∧ m.feature_names_in = some ns)
    ∧ (s.app_state.is_ready = true →
        ∃ m ns, s = startup_event (.ok m) initState
          ∧ m.feature_names_in = some ns) := by
  refine ⟨reachable_alive h, rfl, foldl_stepState s rs,
    fun hr => startup_ready_ok hr, ?_⟩
  intro hr
  rcases reachable_cases h with rfl | ⟨l, rfl⟩
  · cases hr
  · obtain ⟨m, ns, hl, hns⟩ := startup_ready_ok hr
    exact ⟨m, ns, by rw [hl], hns⟩

/-- Witness for C9: the initial state is alive and unchanged by a
`/health` request. -/
theorem claim_C9_frame_witness :
    initState.app_state.is_alive = true
    ∧ stepState initState Request.health = initState := by
  have h := claim_C9_frame initState Request.health []
    (.error "missing") Reachable.pre
  exact ⟨h.1, h.2.1⟩

/-- Claim C10: in every reachable state where `is_ready` holds, the
model handle and the feature-name list are both present — `is_ready`
only becomes true after both global assignments — so a 200 `/ready`
always reports `model_loaded = true`, and the `/predict` handler never
takes the absent-model or absent-feature-list failure paths: it behaves
exactly as the prediction computation over the present handles. -/
theorem claim_C10_ready_invariant
    (s : ServerState) (h : Reachable s)
    (hr : s.app_state.is_ready = true) :
    (∃ m ns, s.model = some m ∧ s.feature_names = some ns
      ∧ ∀ record, predictHandler s record = predictAssuming m ns record)
    ∧ readiness_probe s
        = .ok { statusField := "ready", model_loaded := true } := by
  obtain ⟨m, ns, hm, hn⟩ := reachable_ready_some h hr
  constructor
  · exact ⟨m, ns, hm, hn,
      fun record => predictHandler_eq_assuming s m ns record hr hm hn⟩
  · simp [readiness_probe, hr, hm]

/-- Witness for C10: the ready example state reports
`model_loaded = true` on `/ready`. -/
theorem claim_C10_ready_invariant_witness :
    readiness_probe exState
      = .ok { statusField := "ready", model_loaded := true } := by
  have h := claim_C10_ready_invariant exState
    (Reachable.boot (.ok exClassifier)) (by rfl)
  exact h.2

end FraudService
